import Mathlib

/-!
Verification of the MoveInSync fleet-management front end and of the
spec-level submit/resume pipeline contract.

Definitions are shallow embeddings of the TypeScript sources
(`FleetChatAssistant`, `useVoiceInteraction`, `ProgressBar`) and, where the
backend pipeline itself is not part of the source tree, of the pipeline
contract as the spec states it.
-/

namespace MoveInSync

/-- Roles of chat messages, as in the `Message` interface of
`FleetChatAssistant`. -/
inductive Role
  | user
  | assistant
  deriving DecidableEq, Repr

/-- A chat message as displayed by `FleetChatAssistant`: role, content and
an optional base64 image attached to the entry (`image?: string`).
Timestamps are irrelevant to the verified properties and omitted. -/
structure Msg where
  role : Role
  content : String
  image : Option String
  deriving DecidableEq, Repr

/-- The payload of a `confirmation` stream event
(`InterruptPayload = {message, structured_consequence}`). -/
structure Payload where
  message : String
  structured_consequence : String
  deriving DecidableEq, Repr

/-- The `confirmationState` React state of `FleetChatAssistant`. -/
structure ConfirmState where
  isVisible : Bool
  alertMessage : String
  consequenceDetails : Option Payload
  deriving DecidableEq, Repr

/-- One parsed line of the `/movi/chat` response stream, as dispatched on
`data.type` in `handleSend`. -/
inductive StreamEvent
  | token (content : String)
  | confirmation (payload : Payload)
  | error (content : String)
  deriving DecidableEq, Repr

/-- The slice of `FleetChatAssistant` component state touched by the
stream-processing loop. `errorLog` models the `console.error` sink. -/
structure ChatUIState where
  messages : List Msg
  confirmation : ConfirmState
  errorLog : List String
  deriving DecidableEq, Repr

/-- Update of the last chat message performed by `handleSend`: the
`content` of the last element is overwritten when and only when its role
is `assistant` (the `lastMessage.role === "assistant"` branch). -/
def updateLastAssistant : List Msg → String → List Msg
  | [], _ => []
  | [m], c => if m.role = .assistant then [{ m with content := c }] else [m]
  | m :: m2 :: rest, c => m :: updateLastAssistant (m2 :: rest) c

/-- One iteration of the stream loop body of `handleSend`, dispatching on
the event type: `token` extends the accumulated response and rewrites the
last assistant message; `confirmation` opens the confirmation dialog with
the payload; `error` is only logged. -/
def applyEvent (acc : String) (st : ChatUIState) : StreamEvent → String × ChatUIState
  | .token c =>
      let acc2 := acc ++ c
      (acc2, { st with messages := updateLastAssistant st.messages acc2 })
  | .confirmation p =>
      (acc, { st with confirmation :=
        { isVisible := true, alertMessage := p.message, consequenceDetails := some p } })
  | .error c =>
      (acc, { st with errorLog := st.errorLog ++ [c] })

/-- The stream loop of `handleSend`: fold `applyEvent` over the parsed
events in arrival order, threading the accumulated response. -/
def runStream : List StreamEvent → String → ChatUIState → String × ChatUIState
  | [], acc, st => (acc, st)
  | e :: rest, acc, st =>
      let p := applyEvent acc st e
      runStream rest p.1 p.2

/-- Concatenation, in arrival order, of the `content` fields of the
`token` events of a stream. -/
def tokenConcat : List StreamEvent → String
  | [] => ""
  | .token c :: rest => c ++ tokenConcat rest
  | .confirmation _ :: rest => tokenConcat rest
  | .error _ :: rest => tokenConcat rest

/-- The empty placeholder assistant message `handleSend` appends before
reading the stream. -/
def placeholderMsg : Msg := { role := .assistant, content := "", image := none }

/-- The streaming phase of `handleSend` after a successful fetch: append
the placeholder assistant message, then consume the stream. -/
def handleSendStream (evs : List StreamEvent) (st : ChatUIState) : String × ChatUIState :=
  runStream evs "" { st with messages := st.messages ++ [placeholderMsg] }

/-- Content of the last chat message, if any. -/
def lastContent (ms : List Msg) : Option String := ms.getLast?.map (·.content)

/-- Character-list test: `hay` starts with `needle`. -/
def startsWithChars : List Char → List Char → Bool
  | _, [] => true
  | [], _ :: _ => false
  | a :: as, b :: bs => a == b && startsWithChars as bs

/-- Character-list test: `needle` occurs contiguously inside `hay`. -/
def containsChars : List Char → List Char → Bool
  | [], needle => needle.isEmpty
  | a :: as, needle => startsWithChars (a :: as) needle || containsChars as needle

/-- JavaScript `s.includes(sub)`: substring containment test. -/
def includesStr (s sub : String) : Bool := containsChars s.data sub.data

/-- JavaScript `s.trim()`: strip leading and trailing whitespace. -/
def jsTrim (s : String) : String :=
  ⟨((s.data.dropWhile Char.isWhitespace).reverse.dropWhile Char.isWhitespace).reverse⟩

/-- The characters after the first occurrence of `needle`, if any. -/
def afterMarker : List Char → List Char → Option (List Char)
  | [], _ => none
  | a :: as, needle =>
      if startsWithChars (a :: as) needle then some ((a :: as).drop needle.length)
      else afterMarker as needle

/-- The characters before the first occurrence of `needle`. -/
def upToMarker : List Char → List Char → List Char
  | [], _ => []
  | a :: as, needle =>
      if startsWithChars (a :: as) needle then [] else a :: upToMarker as needle

/-- Page-context detection effect of `FleetChatAssistant`: map
`window.location.pathname` to the `context_page` value sent with every
request, via the ordered `includes` chain of the source. -/
def detectPage (path : String) : String :=
  if includesStr path "/buses" then "busDashboard"
  else if includesStr path "/routes" then "routes"
  else if includesStr path "/stops-paths" then "stops_paths"
  else if includesStr path "/vehicles" then "vehicles"
  else if includesStr path "/drivers" then "drivers"
  else "unknown"

/-- The JSON body POSTed to `/movi/chat` by `handleSend` and
`handleConfirmAction`. -/
structure ChatRequestBody where
  message : String
  session_id : String
  context_page : String
  image_base64 : Option String
  deriving DecidableEq, Repr

/-- A POST issued by the chat component: the endpoint path under
`API_URL` and the JSON body. -/
structure ChatPost where
  endpoint : String
  body : ChatRequestBody
  deriving DecidableEq, Repr

/-- Extraction in `handleSend` of the base64 data from the uploaded data
URL: drop everything up to a `"base64,"` marker when one is present
(`imageToSend.split("base64,")[1]`), otherwise send the string as is. -/
def extractBase64Data (img : String) : String :=
  if includesStr img "base64," then
    match afterMarker img.data "base64,".data with
    | some rest => ⟨upToMarker rest "base64,".data⟩
    | none => ""
  else img

/-- The component state of `FleetChatAssistant` relevant to sending:
chat history, input line, pending image upload, in-flight flag,
confirmation dialog and the log sink. -/
structure ComponentState where
  chatMessages : List Msg
  userInput : String
  uploadedImage : Option String
  imagePreviewUrl : Option String
  isProcessing : Bool
  confirmation : ConfirmState
  errorLog : List String
  deriving DecidableEq, Repr

/-- The fixed apology message appended by the catch branch of
`handleSend`. -/
def apologyMsg : Msg :=
  { role := .assistant, content := "Sorry, I encountered an error. Please try again.",
    image := none }

/-- The whole of `handleSend`, as a function of the session id, the context
page, the fate of the fetch (`ok = true`: response ok and no throw,
carrying the parsed stream events; `ok = false`: non-ok response or thrown
error) and the component state.  Returns the request body actually POSTed
(`none` when the guard returned before any network call) and the component
state after the `finally` block. -/
def handleSend (sid ctx : String) (ok : Bool) (evs : List StreamEvent)
    (st : ComponentState) : Option ChatPost × ComponentState :=
  if (jsTrim st.userInput = "" ∧ st.uploadedImage = none) ∨ st.isProcessing then
    (none, st)
  else
    let userMessage := if st.userInput = "" then "What\x27s in this image?" else st.userInput
    let imageToSend := st.uploadedImage
    let st1 : ComponentState :=
      { st with
        userInput := ""
        chatMessages := st.chatMessages ++
          [{ role := .user, content := userMessage, image := imageToSend }]
        uploadedImage := none
        imagePreviewUrl := none
        isProcessing := true }
    let body : ChatPost :=
      { endpoint := "/movi/chat",
        body := { message := userMessage, session_id := sid, context_page := ctx,
                  image_base64 := imageToSend.map extractBase64Data } }
    if ok then
      let ui0 : ChatUIState :=
        { messages := st1.chatMessages, confirmation := st1.confirmation,
          errorLog := st1.errorLog }
      let ui1 := (handleSendStream evs ui0).2
      (some body,
        { st1 with
          chatMessages := ui1.messages
          confirmation := ui1.confirmation
          errorLog := ui1.errorLog
          isProcessing := false })
    else
      (some body,
        { st1 with
          chatMessages := st1.chatMessages ++ [apologyMsg]
          isProcessing := false })

/-- The text-mode branch of `handleConfirmAction`: the resume is a plain
`/movi/chat` POST whose message is `"yes"` or `"no"` according to the
decision, with the session id and context page of the component and no
image. -/
def textConfirmRequest (confirmed : Bool) (sid ctx : String) : ChatPost :=
  { endpoint := "/movi/chat",
    body := { message := if confirmed then "yes" else "no",
              session_id := sid, context_page := ctx, image_base64 := none } }

/-- Function `sendConfirmation` of `useVoiceInteraction`: when the voice
WebSocket is open it POSTs the same `/movi/chat` body with message
`"yes"`/`"no"`, session id and context page; when the socket is not open
it sends nothing. -/
def voiceSendConfirmation (confirmed : Bool) (sid ctx : String) (wsOpen : Bool) :
    Option ChatPost :=
  if wsOpen then
    some { endpoint := "/movi/chat",
           body := { message := if confirmed then "yes" else "no",
                     session_id := sid, context_page := ctx, image_base64 := none } }
  else none

/-- The request issued by `handleConfirmAction`: delegate to
`sendConfirmation` of the voice hook in voice mode, otherwise POST the
text-mode confirmation body. -/
def handleConfirmAction (confirmed isVoiceActive wsOpen : Bool) (sid ctx : String) :
    Option ChatPost :=
  if isVoiceActive then voiceSendConfirmation confirmed sid ctx wsOpen
  else some (textConfirmRequest confirmed sid ctx)

/-- Observable actions of the voice hook towards the WebSocket layer. -/
inductive WsAction
  | openSocket (url : String)
  | sendInit (session_id context_page : String)
  deriving DecidableEq, Repr

/-- `connectWebSocket` of `useVoiceInteraction`: guarded on an empty or
whitespace-only session id; otherwise opens the socket and, on open,
sends the `init` message with session id and context page. -/
def connectWebSocket (apiUrl sessionId contextPage : String) : List WsAction :=
  if sessionId = "" ∨ jsTrim sessionId = "" then []
  else
    [.openSocket (apiUrl ++ "/movi/voice"), .sendInit sessionId contextPage]

/-- The mount effect of `useVoiceInteraction`: return early on an empty or
whitespace-only session id, otherwise call `connectWebSocket`. -/
def voiceMountEffect (apiUrl sessionId contextPage : String) : List WsAction :=
  if sessionId = "" ∨ jsTrim sessionId = "" then []
  else connectWebSocket apiUrl sessionId contextPage

/-- Fill computation of `ProgressBar`:
`Math.min(Math.max((value / max) * 100, 0), 100)`, over the rationals. -/
def progressPercentage (value mx : ℚ) : ℚ :=
  min (max ((value / mx) * 100) 0) 100

/-! Spec-modelled submit/resume pipeline.  The backend pipeline
(`intelligence/graph.py`, `intelligence/nodes.py`, `endpoints/movi.py`)
is not part of the source tree; the definitions below are modelled from
the spec (sections 4.2, 6 and 7): tool registry with impact levels, the
Safety Gate suspension, the checkpoint, and `submit`/`resume`. -/

/-- Impact level of a tool descriptor (`normal` or `high`). -/
inductive Impact
  | normal
  | high
  deriving DecidableEq, Repr

/-- Execution result as produced by the Action Executor. -/
structure ExecResult where
  success : Bool
  error : Option String
  deriving DecidableEq, Repr

/-- Modelled from the spec: a tool descriptor of the Tool Registry —
name, impact level and handler reference; the handler performs the single
side-effecting operation on the persistence state `σ`, given the
extracted entities. -/
structure Tool (σ : Type) where
  name : String
  impact : Impact
  handler : List (String × String) → σ → σ × ExecResult

/-- Modelled from the spec: the checkpoint created when the Safety Gate
suspends — the selected tool and the extracted entities captured at
suspension time (`suspended_at_stage` is always the safety gate and is
omitted). -/
structure Checkpoint where
  selected_tool : String
  extracted_entities : List (String × String)
  deriving DecidableEq, Repr

/-- Modelled from the spec: the per-session engine state — the underlying
persistence state plus the durable checkpoint slot of the session. -/
structure Engine (σ : Type) where
  persist : σ
  checkpoint : Option Checkpoint

/-- Outcome of a `submit` or `resume` call: either a synthesized reply or
an interrupt payload requesting confirmation. -/
inductive SubmitOutcome
  | reply (text : String) (result : ExecResult)
  | interrupt (payload : Payload)

/-- Modelled from the spec: `submit` after the Intent stage has selected
`toolName` with `entities`.  The Safety Gate looks the tool up in the
registry; a `normal`-impact tool passes through to the Executor, whose
handler updates the persistence state; a `high`-impact tool suspends:
the full state is checkpointed, the consequence resolver output is
returned as an interrupt payload, and no execution side effect occurs. -/
def submit {σ : Type} (registry : String → Option (Tool σ))
    (describe : String → σ → Payload) (toolName : String)
    (entities : List (String × String)) (e : Engine σ) :
    SubmitOutcome × Engine σ :=
  match registry toolName with
  | none => (.reply "unknown tool" { success := false, error := some "unknown_tool" }, e)
  | some t =>
      match t.impact with
      | .normal =>
          let r := t.handler entities e.persist
          (.reply "done" r.2, { e with persist := r.1 })
      | .high =>
          (.interrupt (describe toolName e.persist),
           { e with checkpoint := some { selected_tool := toolName,
                                         extracted_entities := entities } })

/-- Modelled from the spec: `resume` loads and consumes the checkpoint;
`approved = true` runs the Executor on the checkpointed tool and entities
unchanged; `approved = false` skips the Executor and records
`cancelled_by_user`. -/
def resume {σ : Type} (registry : String → Option (Tool σ)) (approved : Bool)
    (e : Engine σ) : SubmitOutcome × Engine σ :=
  match e.checkpoint with
  | none => (.reply "nothing to resume" { success := false, error := some "no_checkpoint" }, e)
  | some cp =>
      if approved then
        match registry cp.selected_tool with
        | some t =>
            let r := t.handler cp.extracted_entities e.persist
            (.reply "done" r.2, { persist := r.1, checkpoint := none })
        | none =>
            (.reply "unknown tool" { success := false, error := some "unknown_tool" },
             { e with checkpoint := none })
      else
        (.reply "cancelled" { success := false, error := some "cancelled_by_user" },
         { e with checkpoint := none })

/-! Concrete instances used to witness the theorems below. -/

/-- A high-impact demonstration tool over a `Nat` persistence state. -/
def demoTool : Tool Nat :=
  { name := "delete_trip", impact := .high,
    handler := fun _ n => (n + 1, { success := true, error := none }) }

/-- A one-tool demonstration registry. -/
def demoRegistry : String → Option (Tool Nat) :=
  fun s => if s = "delete_trip" then some demoTool else none

/-- A demonstration consequence resolver. -/
def demoDescribe : String → Nat → Payload :=
  fun toolName n =>
    { message := "This will affect " ++ toString n ++ " records",
      structured_consequence := toolName }

/-- A demonstration engine state with empty persistence and no pending
checkpoint. -/
def demoEngine : Engine Nat := { persist := 0, checkpoint := none }

/-- A closed confirmation-dialog state. -/
def dialogClosed : ConfirmState :=
  { isVisible := false, alertMessage := "", consequenceDetails := none }

/-- A component state with a request already in flight. -/
def busyDemoState : ComponentState :=
  { chatMessages := [], userInput := "list vehicles", uploadedImage := none,
    imagePreviewUrl := none, isProcessing := true,
    confirmation := dialogClosed, errorLog := [] }

/-- An idle component state with plain text input. -/
def idleDemoState : ComponentState :=
  { chatMessages := [], userInput := "list vehicles", uploadedImage := none,
    imagePreviewUrl := none, isProcessing := false,
    confirmation := dialogClosed, errorLog := [] }

/-- An idle component state for an image-only turn: empty input line and
an uploaded image pending. -/
def imageOnlyDemoState : ComponentState :=
  { chatMessages := [], userInput := "",
    uploadedImage := some "data:image/png;base64,QUJD",
    imagePreviewUrl := some "data:image/png;base64,QUJD",
    isProcessing := false, confirmation := dialogClosed, errorLog := [] }

/-- An idle component state with an uploaded image pending. -/
def imageDemoState : ComponentState :=
  { chatMessages := [], userInput := "what is marked here",
    uploadedImage := some "data:image/png;base64,QUJD",
    imagePreviewUrl := some "data:image/png;base64,QUJD",
    isProcessing := false, confirmation := dialogClosed, errorLog := [] }

/-! Helper lemmas about the stream loop. -/

theorem tokenConcat_append (a b : List StreamEvent) :
    tokenConcat (a ++ b) = tokenConcat a ++ tokenConcat b := by
  induction a with
  | nil => simp [tokenConcat, String.empty_append]
  | cons e rest ih =>
      cases e <;> simp [tokenConcat, ih, String.append_assoc]

theorem updateLastAssistant_append (ms : List Msg) (m : Msg) (c : String)
    (h : m.role = .assistant) :
    updateLastAssistant (ms ++ [m]) c = ms ++ [{ m with content := c }] := by
  induction ms with
  | nil => simp [updateLastAssistant, h]
  | cons a as ih =>
      cases as with
      | nil => simp [updateLastAssistant, h]
      | cons b bs => simpa [updateLastAssistant] using ih

theorem runStream_shape (evs : List StreamEvent) (acc : String) (base : List Msg)
    (img : Option String) (cf : ConfirmState) (lg : List String) :
    (runStream evs acc
        ⟨base ++ [⟨Role.assistant, acc, img⟩], cf, lg⟩).1 = acc ++ tokenConcat evs ∧
    (runStream evs acc
        ⟨base ++ [⟨Role.assistant, acc, img⟩], cf, lg⟩).2.messages =
      base ++ [⟨Role.assistant, acc ++ tokenConcat evs, img⟩] := by
  induction evs generalizing acc cf lg with
  | nil => simp [runStream, tokenConcat, String.append_empty]
  | cons e rest ih =>
      cases e with
      | token c =>
          have hupd : updateLastAssistant (base ++ [⟨Role.assistant, acc, img⟩]) (acc ++ c)
              = base ++ [⟨Role.assistant, acc ++ c, img⟩] := by
            simpa using updateLastAssistant_append base ⟨Role.assistant, acc, img⟩ (acc ++ c) rfl
          have step : runStream (StreamEvent.token c :: rest) acc
              ⟨base ++ [⟨Role.assistant, acc, img⟩], cf, lg⟩ =
              runStream rest (acc ++ c)
                ⟨base ++ [⟨Role.assistant, acc ++ c, img⟩], cf, lg⟩ := by
            simp [runStream, applyEvent, hupd]
          rw [step]
          have hr := ih (acc ++ c) cf lg
          refine ⟨?_, ?_⟩
          · rw [hr.1, tokenConcat, String.append_assoc]
          · rw [hr.2, tokenConcat, String.append_assoc]
      | confirmation p =>
          have step : runStream (StreamEvent.confirmation p :: rest) acc
              ⟨base ++ [⟨Role.assistant, acc, img⟩], cf, lg⟩ =
              runStream rest acc
                ⟨base ++ [⟨Role.assistant, acc, img⟩],
                 ⟨true, p.message, some p⟩, lg⟩ := by
            simp [runStream, applyEvent]
          rw [step]
          simpa [tokenConcat] using ih acc ⟨true, p.message, some p⟩ lg
      | error c =>
          have step : runStream (StreamEvent.error c :: rest) acc
              ⟨base ++ [⟨Role.assistant, acc, img⟩], cf, lg⟩ =
              runStream rest acc
                ⟨base ++ [⟨Role.assistant, acc, img⟩], cf, lg ++ [c]⟩ := by
            simp [runStream, applyEvent]
          rw [step]
          simpa [tokenConcat] using ih acc cf (lg ++ [c])

theorem handleSendStream_spec (evs : List StreamEvent) (st : ChatUIState) :
    (handleSendStream evs st).1 = tokenConcat evs ∧
    (handleSendStream evs st).2.messages =
      st.messages ++ [⟨Role.assistant, tokenConcat evs, none⟩] := by
  have h := runStream_shape evs "" st.messages none st.confirmation st.errorLog
  simpa [handleSendStream, placeholderMsg, String.empty_append] using h

theorem handleSend_no_image_request (sid ctx : String) (ok : Bool)
    (evs : List StreamEvent) (st : ComponentState) (h : st.uploadedImage = none) :
    ∀ p, (handleSend sid ctx ok evs st).1 = some p → p.body.image_base64 = none := by
  intro p hp
  simp only [handleSend, h] at hp
  split_ifs at hp
  all_goals simp_all
  all_goals subst hp
  all_goals rfl

/-! Claim theorems. -/

/-- Claim C3: after the stream loop finishes, the assistant message
appended for the turn holds exactly the concatenation, in arrival order,
of the `content` fields of the `token` events, and after any number `n`
of processed events the displayed content is the concatenation over the
first `n` events, a prefix of the full concatenation. -/
theorem streamed_reply_equals_token_concat (evs : List StreamEvent)
    (st : ChatUIState) (n : ℕ) :
    (handleSendStream evs st).1 = tokenConcat evs ∧
    lastContent (handleSendStream evs st).2.messages = some (tokenConcat evs) ∧
    lastContent (handleSendStream (evs.take n) st).2.messages =
      some (tokenConcat (evs.take n)) ∧
    tokenConcat evs = tokenConcat (evs.take n) ++ tokenConcat (evs.drop n) := by
  obtain ⟨h1, h2⟩ := handleSendStream_spec evs st
  obtain ⟨h3, h4⟩ := handleSendStream_spec (evs.take n) st
  refine ⟨h1, ?_, ?_, ?_⟩
  · rw [h2]
    simp [lastContent]
  · rw [h4]
    simp [lastContent]
  · conv_lhs => rw [← List.take_append_drop n evs]
    exact tokenConcat_append _ _

/-- Claim C4: a stream event of type `confirmation` makes the
confirmation dialog visible with the alert message taken from the
`message` field of the payload and the consequence details set to the
whole payload, and it contributes no reply text: the accumulated response
and the chat messages are untouched. -/
theorem confirmation_event_opens_dialog (acc : String) (ui : ChatUIState) (p : Payload) :
    (applyEvent acc ui (.confirmation p)).1 = acc ∧
    (applyEvent acc ui (.confirmation p)).2.messages = ui.messages ∧
    (applyEvent acc ui (.confirmation p)).2.confirmation.isVisible = true ∧
    (applyEvent acc ui (.confirmation p)).2.confirmation.alertMessage = p.message ∧
    (applyEvent acc ui (.confirmation p)).2.confirmation.consequenceDetails = some p :=
  ⟨rfl, rfl, rfl, rfl, rfl⟩

/-- Claim C6: the context page sent with each request is a total function
of the URL pathname given by the ordered `includes` chain of the source,
and its value is always one of the six enumerated strings. -/
theorem detectPage_chain_and_range (p : String) :
    detectPage p =
      (if includesStr p "/buses" then "busDashboard"
       else if includesStr p "/routes" then "routes"
       else if includesStr p "/stops-paths" then "stops_paths"
       else if includesStr p "/vehicles" then "vehicles"
       else if includesStr p "/drivers" then "drivers"
       else "unknown") ∧
    detectPage p ∈
      (["busDashboard", "routes", "stops_paths", "vehicles", "drivers", "unknown"] :
        List String) := by
  refine ⟨rfl, ?_⟩
  unfold detectPage
  split_ifs <;> simp

/-- Claim C2: for any confirmation decision, in text mode and in voice
mode (with the voice WebSocket open), the resume is a POST to the same
`/movi/chat` entry point used by `handleSend`, with the same session id
and context page as the suspended turn, and a message that is exactly
`"yes"` for an approval and exactly `"no"` for a rejection. -/
theorem confirm_resume_uses_same_chat_entry (b isVoiceActive : Bool) (sid ctx : String) :
    handleConfirmAction b isVoiceActive true sid ctx =
      some { endpoint := "/movi/chat",
             body := { message := if b then "yes" else "no",
                       session_id := sid, context_page := ctx,
                       image_base64 := none } } := by
  cases isVoiceActive <;> rfl

/-- Claim C5: for every turn that issues a chat request (the send guard
passes: non-empty trimmed input or a pending image), when the request
fails (non-ok response or thrown error) the fixed apology assistant
message is appended after the user entry and the processing flag is
cleared; moreover a stream event of type `error` only appends to the log
and changes neither the chat messages nor the confirmation dialog. -/
theorem failed_request_yields_apology (sid ctx : String) (evs : List StreamEvent)
    (st : ComponentState) (hbusy : st.isProcessing = false)
    (hsome : jsTrim st.userInput ≠ "" ∨ st.uploadedImage ≠ none) :
    ((handleSend sid ctx false evs st).2.chatMessages =
      st.chatMessages ++
        [{ role := .user,
           content := if st.userInput = "" then "What\x27s in this image?"
             else st.userInput,
           image := st.uploadedImage },
         apologyMsg]) ∧
    (handleSend sid ctx false evs st).2.isProcessing = false ∧
    (∀ (acc : String) (ui : ChatUIState) (c : String),
      (applyEvent acc ui (.error c)).1 = acc ∧
      (applyEvent acc ui (.error c)).2.messages = ui.messages ∧
      (applyEvent acc ui (.error c)).2.confirmation = ui.confirmation ∧
      (applyEvent acc ui (.error c)).2.errorLog = ui.errorLog ++ [c]) := by
  have hguard : ¬ ((jsTrim st.userInput = "" ∧ st.uploadedImage = none) ∨
      st.isProcessing = true) := by
    rcases hsome with h | h <;> simp [hbusy, h]
  refine ⟨?_, ?_, fun acc ui c => ⟨rfl, rfl, rfl, rfl⟩⟩ <;>
    simp [handleSend, hguard]

/-- Witness for C5 at a concrete image-only turn: empty input line, image
pending. -/
theorem failed_request_yields_apology_witness :
    (imageOnlyDemoState.isProcessing = false ∧
     (jsTrim imageOnlyDemoState.userInput ≠ "" ∨
      imageOnlyDemoState.uploadedImage ≠ none)) ∧
    ((handleSend "s1" "busDashboard" false [] imageOnlyDemoState).2.chatMessages =
      imageOnlyDemoState.chatMessages ++
        [{ role := .user,
           content := if imageOnlyDemoState.userInput = "" then "What\x27s in this image?"
             else imageOnlyDemoState.userInput,
           image := imageOnlyDemoState.uploadedImage }, apologyMsg]) ∧
    (handleSend "s1" "busDashboard" false [] imageOnlyDemoState).2.isProcessing = false :=
  ⟨⟨rfl, Or.inr (by decide)⟩,
   (failed_request_yields_apology "s1" "busDashboard" [] imageOnlyDemoState rfl
      (Or.inr (by decide))).1,
   (failed_request_yields_apology "s1" "busDashboard" [] imageOnlyDemoState rfl
      (Or.inr (by decide))).2.1⟩

/-- Claim C7: while a previous request is in flight (`isProcessing` set),
invoking the send handler performs no network call and leaves the
component state unchanged. -/
theorem busy_send_is_noop (sid ctx : String) (ok : Bool) (evs : List StreamEvent)
    (st : ComponentState) (h : st.isProcessing = true) :
    handleSend sid ctx ok evs st = (none, st) := by
  simp [handleSend, h]

/-- Witness for C7 at a concrete busy state. -/
theorem busy_send_is_noop_witness :
    busyDemoState.isProcessing = true ∧
    handleSend "s1" "busDashboard" true [.token "hi"] busyDemoState =
      (none, busyDemoState) :=
  ⟨rfl, busy_send_is_noop "s1" "busDashboard" true [.token "hi"] busyDemoState rfl⟩

/-- Claim C9: for a positive maximum the fill percentage of `ProgressBar`
equals `min (max ((value / max) * 100) 0) 100` and always lies in the
interval `[0, 100]`, for any value including negative ones and ones
exceeding the maximum. -/
theorem progressPercentage_formula_and_bounds (value mx : ℚ) (h : 0 < mx) :
    progressPercentage value mx = min (max ((value / mx) * 100) 0) 100 ∧
    0 ≤ progressPercentage value mx ∧ progressPercentage value mx ≤ 100 :=
  ⟨rfl, le_min (le_max_right _ _) (by norm_num), min_le_right _ _⟩

/-- Witness for C9 with a value exceeding the maximum. -/
theorem progressPercentage_witness :
    (0 : ℚ) < 50 ∧
    (progressPercentage 130 50 = min (max ((130 / 50) * 100) 0) 100 ∧
     0 ≤ progressPercentage 130 50 ∧ progressPercentage 130 50 ≤ 100) :=
  ⟨by norm_num, progressPercentage_formula_and_bounds 130 50 (by norm_num)⟩

/-- Claim C10: for a session id that is empty or whitespace-only (its
trim is empty), the voice hook neither opens a WebSocket nor sends any
message: both `connectWebSocket` and the mount effect produce no
actions. -/
theorem empty_session_no_voice_connect (apiUrl sessionId contextPage : String)
    (h : jsTrim sessionId = "") :
    connectWebSocket apiUrl sessionId contextPage = [] ∧
    voiceMountEffect apiUrl sessionId contextPage = [] := by
  constructor <;> simp [connectWebSocket, voiceMountEffect, h]

/-- Witness for C10 with a whitespace-only session id. -/
theorem empty_session_no_voice_connect_witness :
    jsTrim "  " = "" ∧
    connectWebSocket "http:api" "  " "busDashboard" = [] ∧
    voiceMountEffect "http:api" "  " "busDashboard" = [] :=
  ⟨by decide,
   (empty_session_no_voice_connect "http:api" "  " "busDashboard" (by decide)).1,
   (empty_session_no_voice_connect "http:api" "  " "busDashboard" (by decide)).2⟩

/-- Claim C1: selecting a high-impact tool makes `submit` return an
interrupt payload before any execution side effect: the persistence state
is unchanged after `submit`, a durable checkpoint of the pending
confirmation is recorded, and the persistence state is updated by the
handler only after `resume` with `approved = true`, while `resume` with
`approved = false` also leaves it unchanged. -/
theorem submit_high_impact_interrupts {σ : Type} (registry : String → Option (Tool σ))
    (describe : String → σ → Payload) (toolName : String)
    (entities : List (String × String)) (t : Tool σ) (e : Engine σ)
    (hreg : registry toolName = some t) (himp : t.impact = .high) :
    (submit registry describe toolName entities e).1 =
      .interrupt (describe toolName e.persist) ∧
    (submit registry describe toolName entities e).2.persist = e.persist ∧
    (submit registry describe toolName entities e).2.checkpoint =
      some { selected_tool := toolName, extracted_entities := entities } ∧
    (resume registry true (submit registry describe toolName entities e).2).2.persist =
      (t.handler entities e.persist).1 ∧
    (resume registry false (submit registry describe toolName entities e).2).2.persist =
      e.persist := by
  refine ⟨?_, ?_, ?_, ?_, ?_⟩ <;> simp [submit, resume, hreg, himp]

/-- Witness for C1 at the demonstration registry, where the high-impact
demonstration tool increments the persistence counter. -/
theorem submit_high_impact_interrupts_witness :
    (demoRegistry "delete_trip" = some demoTool ∧ demoTool.impact = .high) ∧
    (submit demoRegistry demoDescribe "delete_trip" [] demoEngine).1 =
      .interrupt (demoDescribe "delete_trip" 0) ∧
    (submit demoRegistry demoDescribe "delete_trip" [] demoEngine).2.persist = 0 ∧
    (resume demoRegistry true
      (submit demoRegistry demoDescribe "delete_trip" [] demoEngine).2).2.persist = 1 :=
  ⟨⟨rfl, rfl⟩,
   (submit_high_impact_interrupts demoRegistry demoDescribe "delete_trip" [] demoTool
      demoEngine rfl rfl).1,
   (submit_high_impact_interrupts demoRegistry demoDescribe "delete_trip" [] demoTool
      demoEngine rfl rfl).2.1,
   (submit_high_impact_interrupts demoRegistry demoDescribe "delete_trip" [] demoTool
      demoEngine rfl rfl).2.2.2.1⟩

/-- Counterexample to claim C8 as stated: after a turn that carries an
uploaded image completes, the chat message history does hold the image
payload — the user entry appended by `handleSend` retains the uploaded
base64 string in its `image` field. -/
theorem image_retained_in_history_counterexample :
    ((handleSend "s1" "busDashboard" true [.token "Done"] imageDemoState).2.chatMessages.any
      (fun m => m.image.isSome)) = true ∧
    (handleSend "s1" "busDashboard" true [.token "Done"] imageDemoState).2.chatMessages =
      [{ role := .user, content := "what is marked here",
         image := some "data:image/png;base64,QUJD" },
       { role := .assistant, content := "Done", image := none }] := by
  constructor <;> decide

/-- Claim C8 as amended: the raw image is transmitted to the backend only
for the turn in which it was uploaded — the request of that turn carries
the extracted base64 data, and the pending-upload state is cleared by the
send, so any later send from the resulting state (whatever its new input)
carries no image; the chat message history, however, retains the image on
the user entry of that turn for display. -/
theorem image_sent_only_for_its_turn (sid ctx : String) (ok : Bool)
    (evs : List StreamEvent) (st : ComponentState) (img : String)
    (hbusy : st.isProcessing = false) (himg : st.uploadedImage = some img) :
    (handleSend sid ctx ok evs st).1 =
      some { endpoint := "/movi/chat",
             body := { message :=
                         if st.userInput = "" then "What\x27s in this image?"
                         else st.userInput,
                       session_id := sid, context_page := ctx,
                       image_base64 := some (extractBase64Data img) } } ∧
    (handleSend sid ctx ok evs st).2.uploadedImage = none ∧
    (handleSend sid ctx ok evs st).2.imagePreviewUrl = none ∧
    (∃ m ∈ (handleSend sid ctx ok evs st).2.chatMessages, m.image = some img) ∧
    (∀ (sid2 ctx2 : String) (ok2 : Bool) (evs2 : List StreamEvent)
       (st2 : ComponentState), st2.uploadedImage = none →
       ∀ p, (handleSend sid2 ctx2 ok2 evs2 st2).1 = some p →
         p.body.image_base64 = none) := by
  have hguard : ¬ ((jsTrim st.userInput = "" ∧ st.uploadedImage = none) ∨
      st.isProcessing = true) := by
    simp [hbusy, himg]
  refine ⟨?_, ?_, ?_, ?_, ?_⟩
  · cases ok <;> simp [handleSend, hguard, hbusy, himg]
  · cases ok <;> simp [handleSend, hguard, hbusy, himg]
  · cases ok <;> simp [handleSend, hguard, hbusy, himg]
  · refine ⟨{ role := Role.user,
              content := if st.userInput = "" then "What\x27s in this image?"
                else st.userInput,
              image := some img }, ?_, rfl⟩
    cases ok
    · simp [handleSend, hguard, hbusy, himg]
    · obtain ⟨-, hmsgs⟩ := handleSendStream_spec evs
        ⟨st.chatMessages ++
          [{ role := .user,
             content := if st.userInput = "" then "What\x27s in this image?"
               else st.userInput,
             image := some img }],
         st.confirmation, st.errorLog⟩
      simp only [handleSend, himg]
      simp [hguard, hbusy, hmsgs]
  · intro sid2 ctx2 ok2 evs2 st2 h2
    exact handleSend_no_image_request sid2 ctx2 ok2 evs2 st2 h2

/-- Witness for the amended C8 at a concrete image-carrying state. -/
theorem image_sent_only_for_its_turn_witness :
    (imageDemoState.isProcessing = false ∧
     imageDemoState.uploadedImage = some "data:image/png;base64,QUJD") ∧
    (handleSend "s1" "busDashboard" true [.token "Done"] imageDemoState).1 =
      some { endpoint := "/movi/chat",
             body := { message := "what is marked here",
                       session_id := "s1", context_page := "busDashboard",
                       image_base64 := some "QUJD" } } ∧
    (handleSend "s1" "busDashboard" true [.token "Done"] imageDemoState).2.uploadedImage =
      none :=
  ⟨⟨rfl, rfl⟩,
   by
     have h := (image_sent_only_for_its_turn "s1" "busDashboard" true [.token "Done"]
       imageDemoState "data:image/png;base64,QUJD" rfl rfl).1
     simpa using h,
   (image_sent_only_for_its_turn "s1" "busDashboard" true [.token "Done"]
     imageDemoState "data:image/png;base64,QUJD" rfl rfl).2.1⟩

end MoveInSync
